import Mathlib

/-!
Verification of the Prism identity-discovery engine.

The embedding below translates the engine code of the repository into Lean:

* `generateVariations` from `src/app/lib/platforms.ts` (the v3.0 variant that the
  search route imports, lines 143-177): query normalization, separator joins,
  identity prefixes/suffixes, stylized-handle re-splitting, insertion-ordered
  dedup, cap at 12.
* `scrapeProfile` from `src/app/api/search/route.ts` (lines 62-187): the HTTP
  response classification (404 / 401 / 403 / other non-200), the soft-404 check,
  Open-Graph bio extraction, the additive confidence bonuses and the local
  catch-all that turns any exception into a not-found result.  Network I/O and
  HTML parsing are abstracted into a `FetchResponse` record carrying exactly the
  observations the code reads from the response (status, title text, body text,
  the meta-tag contents); a thrown exception is the `FetchOutcome.failure` case.
* the dedup/rank pipeline of `POST` (lines 246-254): publish filter, descending
  stable sort, JS-`Map` deduplication keyed by `platform + url`, cap at 35.
* `searchDiscovery` from the SerpApi variant of the route (lines 281-310):
  missing credential, provider error and thrown exception all yield `[]`;
  success filters links by domain and caps at 2.

JavaScript string primitives (`includes`, `slice`, `parseInt`, `match(/\d+/g)`,
first-truthy `||` chains) are modelled by the `js`-prefixed helpers, over the
character list of the string.
-/

/-- JS `s.toLowerCase()`, over the character list of the string. -/
def lowerStr (s : String) : String :=
  String.mk (s.toList.map Char.toLower)

/-- JS `s.trim()`: strip outer whitespace, over the character list. -/
def trimStr (s : String) : String :=
  String.mk (((s.toList.dropWhile Char.isWhitespace).reverse.dropWhile
    Char.isWhitespace).reverse)

/-- JS `s.includes(c)` for a single character. -/
def containsChar (s : String) (c : Char) : Bool :=
  s.toList.any fun d => d == c

/-- Split a character list at every character satisfying `p`, keeping empty
fields, as a JS `split` on a character class does. -/
def splitChars (p : Char → Bool) : List Char → List (List Char)
  | [] => [[]]
  | c :: rest =>
      let r := splitChars p rest
      if p c then [] :: r
      else
        match r with
        | [] => [[c]]
        | h :: t => (c :: h) :: t

/-- JS `s.split(charClassRegex)`: split on each matching character. -/
def jsSplit (s : String) (p : Char → Bool) : List String :=
  (splitChars p s.toList).map String.mk

/-- JS `parts.join(sep)`. -/
def joinSep (sep : String) : List String → String
  | [] => ""
  | [x] => x
  | x :: rest => x ++ sep ++ joinSep sep rest

/-- JS `s.includes(sub)`: substring containment test. -/
def jsIncludes (s sub : String) : Bool :=
  let cs := s.toList
  let ps := sub.toList
  (List.range (cs.length + 1)).any fun i => ps.isPrefixOf (cs.drop i)

/-- JS `s.slice(0, n)`: the first `n` characters of `s`. -/
def strTake (s : String) (n : Nat) : String :=
  String.mk (s.toList.take n)

/-- Numeric value of a list of decimal digit characters. -/
def digitsVal (cs : List Char) : Nat :=
  cs.foldl (fun a c => a * 10 + (c.toNat - 48)) 0

/-- JS `parseInt(s)` restricted to decimal notation: optional leading
whitespace, optional sign, then a maximal digit run; `none` models `NaN`
(every comparison against `NaN` is false, which the call sites reproduce by
matching on `none`). -/
def jsParseInt (s : String) : Option Int :=
  let cs := s.toList.dropWhile Char.isWhitespace
  match cs with
  | '-' :: rest =>
      let ds := rest.takeWhile Char.isDigit
      if ds = [] then none else some (-(digitsVal ds : Int))
  | '+' :: rest =>
      let ds := rest.takeWhile Char.isDigit
      if ds = [] then none else some (digitsVal ds)
  | _ =>
      let ds := cs.takeWhile Char.isDigit
      if ds = [] then none else some (digitsVal ds)

/-- Worker for `digitRuns`: `cur` is the value of the digit run in progress. -/
def digitRunsGo : Option Nat → List Char → List Nat
  | cur, [] =>
      match cur with
      | some v => [v]
      | none => []
  | cur, c :: rest =>
      if c.isDigit then digitRunsGo (some ((cur.getD 0) * 10 + (c.toNat - 48))) rest
      else
        match cur with
        | some v => v :: digitRunsGo none rest
        | none => digitRunsGo none rest

/-- JS `s.match(/\d+/g)` with each maximal digit run parsed by `parseInt`:
the values of the maximal digit runs of `s`, in order (empty list models the
`null` result, which the call site skips). -/
def digitRuns (s : String) : List Nat :=
  digitRunsGo none s.toList

/-- Truthiness of a JS `string | undefined` value. -/
def isTruthy : Option String → Bool
  | none => false
  | some s => !(s == "")

/-- JS `x || d` on a `string | undefined` value `x`. -/
def orDefault (o : Option String) (d : String) : String :=
  match o with
  | none => d
  | some s => if s = "" then d else s

/-- First truthy value of a JS `a || b || c || ''` chain of attribute reads. -/
def firstTruthy : List (Option String) → String
  | [] => ""
  | none :: rest => firstTruthy rest
  | some s :: rest => if s = "" then firstTruthy rest else s

/-- Worker for `replaceFirst`. -/
def replaceFirstGo (pat repl : List Char) : List Char → List Char
  | [] => []
  | c :: rest =>
      if pat.isPrefixOf (c :: rest) then repl ++ (c :: rest).drop pat.length
      else c :: replaceFirstGo pat repl rest

/-- JS `s.replace(pat, repl)` with a string pattern: replaces the first
occurrence only. -/
def replaceFirst (s pat repl : String) : String :=
  String.mk (replaceFirstGo pat.toList repl.toList s.toList)

/-- Platform registry entry (`Platform` of `src/app/lib/platforms.ts`); the
category union type is modelled as a plain string. -/
structure Platform where
  name : String
  url : String
  category : String
deriving DecidableEq

/-- Request metadata (`SearchMetadata` of `src/app/api/search/route.ts`);
optional fields are JS `string | undefined`. -/
structure SearchMetadata where
  minAge : Option String
  maxAge : Option String
  gender : Option String
  location : Option String
  query : String
deriving DecidableEq

/-- The observations `scrapeProfile` reads from a fetched page: the HTTP
status, the text of the `title` element, the body text, and the contents of
the description/image meta tags (`none` models an absent tag). -/
structure FetchResponse where
  status : Nat
  title : String
  bodyText : String
  ogDescription : Option String
  metaDescription : Option String
  twitterDescription : Option String
  ogImage : Option String
  twitterImage : Option String
deriving DecidableEq

/-- Outcome of the `fetch` call inside `scrapeProfile`: either a response, or
a thrown exception (timeout, DNS failure, parse error), which the code
catches locally. -/
inductive FetchOutcome where
  | failure
  | success (resp : FetchResponse)
deriving DecidableEq

/-- `SearchResult` of `src/app/lib/platforms.ts`; `profileImage` is `""` where
the code omits the field or sets it to the empty string. -/
structure SearchResult where
  platform : String
  url : String
  found : Bool
  username : String
  category : String
  confidence : Nat
  matchReasons : List String
  scrapedBio : String
  profileImage : String
deriving DecidableEq

/-- Soft-404 marker list of `scrapeProfile`. -/
def soft404Markers : List String :=
  ["page not found", "user not found", "not found", "doesn\x27t exist",
   "does not exist", "couldn\x27t find", "error 404", "login • instagram",
   "log in to twitter", "login on twitter", "create an account or log in"]

/-- Person-profile marker list of `scrapeProfile`. -/
def personMarkers : List String :=
  ["profile", "joined", "follower", "following", "posts", "bio", "social", "member"]

/-- `const pageTitle = $(title).text().toLowerCase()`. -/
def pageTitleOf (resp : FetchResponse) : String :=
  lowerStr resp.title

/-- `const pageContent = $(body).text().toLowerCase().slice(0, 1000)`. -/
def pageContentOf (resp : FetchResponse) : String :=
  strTake (lowerStr resp.bodyText) 1000

/-- The soft-404 test: some marker occurs in the lowercased page title or in
the first 1000 characters of the lowercased body text. -/
def isSoft404 (resp : FetchResponse) : Bool :=
  soft404Markers.any fun m =>
    jsIncludes (pageTitleOf resp) m || jsIncludes (pageContentOf resp) m

/-- Bio extraction: `og:description || description || twitter:description || ''`. -/
def bioOf (resp : FetchResponse) : String :=
  firstTruthy [resp.ogDescription, resp.metaDescription, resp.twitterDescription]

/-- Image extraction: `og:image || twitter:image || ''`. -/
def imageOf (resp : FetchResponse) : String :=
  firstTruthy [resp.ogImage, resp.twitterImage]

/-- The location bonus condition: `metadata.location` is truthy and the
lowercased location occurs in the lowercased bio or title. -/
def locationBonus (md : SearchMetadata) (lowBio lowTitle : String) : Bool :=
  match md.location with
  | none => false
  | some loc =>
      !(loc == "") &&
        (jsIncludes lowBio (lowerStr loc) || jsIncludes lowTitle (lowerStr loc))

/-- The age bonus condition: one of the age bounds is supplied, both parse,
and some digit run of `bio + ' ' + title` lies in `[min, max]` and exceeds 12.
(The code compares against `NaN` when a bound does not parse, which makes
every comparison false; that is the `none` branch here.) -/
def ageBonus (md : SearchMetadata) (lowBio lowTitle : String) : Bool :=
  if isTruthy md.minAge || isTruthy md.maxAge then
    match jsParseInt (orDefault md.minAge "0"), jsParseInt (orDefault md.maxAge "100") with
    | some mn, some mx =>
        (digitRuns (lowBio ++ " " ++ lowTitle)).any fun n =>
          decide (mn ≤ (n : Int) ∧ (n : Int) ≤ mx ∧ 12 < (n : Int))
    | _, _ => false
  else false

/-- The gender bonus condition: `metadata.gender` is truthy, differs from
`"unspecified"`, and occurs verbatim (the code does not lowercase it) in the
lowercased bio or title. -/
def genderBonus (md : SearchMetadata) (lowBio lowTitle : String) : Bool :=
  match md.gender with
  | none => false
  | some g =>
      !(g == "") && !(g == "unspecified") &&
        (jsIncludes lowBio g || jsIncludes lowTitle g)

/-- The person-profile marker bonus condition. -/
def markerBonus (lowBio lowTitle : String) : Bool :=
  personMarkers.any fun m => jsIncludes lowBio m || jsIncludes lowTitle m

/-- The additive confidence score of the HTTP-200 branch of `scrapeProfile`:
base 30, +35 location, +25 age, +15 gender, +10 person markers (the cap at
100 is applied by the caller). -/
def scoreOf (md : SearchMetadata) (lowBio lowTitle : String) : Nat :=
  30 + (if locationBonus md lowBio lowTitle then 35 else 0)
     + (if ageBonus md lowBio lowTitle then 25 else 0)
     + (if genderBonus md lowBio lowTitle then 15 else 0)
     + (if markerBonus lowBio lowTitle then 10 else 0)

/-- The match reasons accumulated by the HTTP-200 branch, in push order. -/
def reasonsOf (md : SearchMetadata) (lowBio lowTitle : String) : List String :=
  ["Profile Discovery"]
    ++ (if locationBonus md lowBio lowTitle then ["Verified Location Match"] else [])
    ++ (if ageBonus md lowBio lowTitle then ["Age Range Affinity Verified"] else [])
    ++ (if genderBonus md lowBio lowTitle then ["Gender Consistency"] else [])

/-- The not-found result returned for 404s, other non-success statuses,
soft-404 pages and caught exceptions. -/
def notFoundResult (pf : Platform) (u url : String) : SearchResult :=
  { platform := pf.name, url := url, found := false, username := u,
    category := pf.category, confidence := 0, scrapedBio := "",
    matchReasons := [], profileImage := "" }

/-- The result returned for HTTP 401/403: the profile is treated as existing
but access-restricted. -/
def restrictedResult (pf : Platform) (u url : String) : SearchResult :=
  { platform := pf.name, url := url, found := true, username := u,
    category := pf.category, confidence := 50, scrapedBio := "Private Profile",
    matchReasons := ["Platform restricted access (Profile likely exists)"],
    profileImage := "" }

/-- The HTTP-200, non-soft-404 branch of `scrapeProfile`. -/
def successResult (pf : Platform) (u : String) (md : SearchMetadata)
    (resp : FetchResponse) (url : String) : SearchResult :=
  let lowTitle := pageTitleOf resp
  let bio := bioOf resp
  let lowBio := lowerStr bio
  { platform := pf.name, url := url, found := true, username := u,
    category := pf.category,
    confidence := min (scoreOf md lowBio lowTitle) 100,
    scrapedBio := strTake bio 200,
    matchReasons := reasonsOf md lowBio lowTitle,
    profileImage := imageOf resp }

/-- Response classification of `scrapeProfile`, in the order of the code:
404, then other non-200 (with the 401/403 exception), then soft-404, then
the scored success result. -/
def scrapeResponse (pf : Platform) (u : String) (md : SearchMetadata)
    (resp : FetchResponse) (url : String) : SearchResult :=
  if resp.status = 404 then notFoundResult pf u url
  else if resp.status ≠ 200 then
    if resp.status = 403 ∨ resp.status = 401 then restrictedResult pf u url
    else notFoundResult pf u url
  else if isSoft404 resp then notFoundResult pf u url
  else successResult pf u md resp url

/-- `scrapeProfile` of `src/app/api/search/route.ts`: builds the URL from the
platform template, classifies the fetch outcome; the `catch` block turns a
thrown exception into a not-found result. -/
def scrapeProfile (pf : Platform) (u : String) (md : SearchMetadata)
    (outcome : FetchOutcome) : SearchResult :=
  let url := replaceFirst pf.url "\x7b\x7d" u
  match outcome with
  | .failure => notFoundResult pf u url
  | .success resp => scrapeResponse pf u md resp url

/-- JS `cleaned.split(/\s+/)` for a string already trimmed of outer
whitespace: the empty string splits to `[""]`, otherwise the whitespace-
separated tokens (maximal whitespace runs yield no empty tokens). -/
def splitWs (s : String) : List String :=
  if s = "" then [""]
  else (jsSplit s fun c => c.isWhitespace).filter fun t => t ≠ ""

/-- JS `Set.add` observed through insertion order: append the element unless
it is already present. -/
def addUnique (l : List String) (x : String) : List String :=
  if x ∈ l then l else l ++ [x]

/-- The no-separator joined form of the normalized query: `words.join('')`
for `words = input.toLowerCase().trim().split(/\s+/)`. -/
def joinedForm (input : String) : String :=
  joinSep "" (splitWs (trimStr (lowerStr input)))

/-- Step 4 of `generateVariations`: when the raw input contains `_` or `.`,
re-split the lowercased input on `.`/`_`/`-` and re-join with each separator. -/
def stylizedCandidates (input : String) : List String :=
  if containsChar input '_' || containsChar input '.' then
    let parts := jsSplit (lowerStr input) fun c => c == '.' || c == '_' || c == '-'
    if parts.length > 1 then
      joinSep "" parts :: ([".", "_", "-"].map fun sep => joinSep sep parts)
    else []
  else []

/-- The candidate variations of `generateVariations`
(`src/app/lib/platforms.ts`, lines 143-177), in `Set.add` order: the joined
form, the separator joins (only for multi-token queries), the identity
prefix and suffix forms, and the stylized re-splits. -/
def variationCandidates (input : String) : List String :=
  let cleaned := trimStr (lowerStr input)
  let words := splitWs cleaned
  let joined := joinSep "" words
  joined ::
    ((if words.length > 1 then
        [".", "_", "-"].map fun sep => joinSep sep words
      else [])
     ++ (["the", "real", "official", "iam"].map fun p => p ++ joined)
     ++ (["official", "real", "dev", "hq", "admin", "profile"].map fun sfx => joined ++ sfx)
     ++ stylizedCandidates input)

/-- `generateVariations`: insertion-ordered deduplication of the candidates,
truncated to 12. -/
def generateVariations (input : String) : List String :=
  ((variationCandidates input).foldl addUnique []).take 12

/-- The publish filter of `POST`: `r.found && r.confidence >= 30`. -/
def publishFilter (r : SearchResult) : Bool :=
  r.found && decide (30 ≤ r.confidence)

/-- Stable insertion step for the descending confidence sort: the inserted
element came earlier in the input, so it stays in front of elements of equal
confidence, as the stable JS `Array.sort` comparator
`(a, b) => b.confidence - a.confidence` does. -/
def sortInsert (r : SearchResult) : List SearchResult → List SearchResult
  | [] => [r]
  | y :: ys =>
      if y.confidence ≤ r.confidence then r :: y :: ys
      else y :: sortInsert r ys

/-- The stable sort by confidence descending used by `POST`. -/
def sortDesc : List SearchResult → List SearchResult
  | [] => []
  | x :: xs => sortInsert x (sortDesc xs)

/-- The JS `Map` key used for deduplication: `r.platform + r.url`. -/
def dedupKey (r : SearchResult) : String :=
  r.platform ++ r.url

/-- JS `Map.set`: overwrite the value of an existing key in place, otherwise
append the pair (a key keeps its first-insertion position). -/
def mapSet (k : String) (v : SearchResult) :
    List (String × SearchResult) → List (String × SearchResult)
  | [] => [(k, v)]
  | (k2, v2) :: rest =>
      if k = k2 then (k2, v) :: rest
      else (k2, v2) :: mapSet k v rest

/-- `new Map(list.map(r => [r.platform + r.url, r]))`: fold the entries into
an insertion-ordered map. -/
def buildMap (rs : List SearchResult) : List (String × SearchResult) :=
  rs.foldl (fun m r => mapSet (dedupKey r) r m) []

/-- `Array.from(map.values())`. -/
def uniqueRanked (rs : List SearchResult) : List SearchResult :=
  (buildMap rs).map Prod.snd

/-- The result pipeline of `POST` (`src/app/api/search/route.ts`, lines
246-254): filter by `found && confidence >= 30`, sort by confidence
descending, deduplicate through the `platform + url` map, cap at 35. -/
def rankResults (rs : List SearchResult) : List SearchResult :=
  (uniqueRanked (sortDesc (rs.filter publishFilter))).take 35

/-- The fields of the SerpApi JSON that `searchDiscovery` reads: whether
`data.error` is truthy, and `data.organic_results?.map(res => res.link)`
(empty when absent). -/
structure SerpResponse where
  error : Bool
  organicLinks : List String
deriving DecidableEq

/-- Outcome of the provider call inside `searchDiscovery`: a parsed JSON
response or a thrown exception. -/
inductive DiscoveryOutcome where
  | failure
  | success (resp : SerpResponse)
deriving DecidableEq

/-- `searchDiscovery` of the SerpApi route variant
(`src/app/api/search/route.ts`, lines 281-310): no configured API key, a
thrown exception, or an error-bearing response all yield `[]`; otherwise the
organic links containing the platform domain, capped at 2. -/
def searchDiscovery (apiKey : Option String) (domain : String)
    (outcome : DiscoveryOutcome) : List String :=
  match apiKey with
  | none => []
  | some _ =>
      match outcome with
      | .failure => []
      | .success resp =>
          if resp.error then []
          else ((resp.organicLinks.filter fun l => jsIncludes l domain).take 2)

/-! Supporting lemmas about the sort, the map-based deduplication and the
insertion-ordered set of the variation generator. -/

theorem mem_sortInsert {x r : SearchResult} {l : List SearchResult}
    (h : x ∈ sortInsert r l) : x = r ∨ x ∈ l := by
  induction l with
  | nil => simpa [sortInsert] using h
  | cons y ys ih =>
      unfold sortInsert at h
      by_cases hc : y.confidence ≤ r.confidence
      · rw [if_pos hc, List.mem_cons] at h
        rcases h with h | h
        · exact Or.inl h
        · exact Or.inr h
      · rw [if_neg hc, List.mem_cons] at h
        rcases h with h | h
        · exact Or.inr (List.mem_cons.mpr (Or.inl h))
        · rcases ih h with h' | h'
          · exact Or.inl h'
          · exact Or.inr (List.mem_cons.mpr (Or.inr h'))

theorem sortInsert_pairwise (r : SearchResult) (l : List SearchResult)
    (h : l.Pairwise fun a b => b.confidence ≤ a.confidence) :
    (sortInsert r l).Pairwise fun a b => b.confidence ≤ a.confidence := by
  induction l with
  | nil => simp [sortInsert]
  | cons y ys ih =>
      rw [List.pairwise_cons] at h
      unfold sortInsert
      by_cases hc : y.confidence ≤ r.confidence
      · rw [if_pos hc]
        refine List.Pairwise.cons ?_ (List.Pairwise.cons h.1 h.2)
        intro b hb
        rw [List.mem_cons] at hb
        rcases hb with rfl | hb
        · exact hc
        · exact le_trans (h.1 _ hb) hc
      · rw [if_neg hc]
        refine List.Pairwise.cons ?_ (ih h.2)
        intro b hb
        rcases mem_sortInsert hb with rfl | hb
        · exact le_of_not_le hc
        · exact h.1 _ hb

theorem sortDesc_pairwise (l : List SearchResult) :
    (sortDesc l).Pairwise fun a b => b.confidence ≤ a.confidence := by
  induction l with
  | nil => simp [sortDesc]
  | cons x xs ih => exact sortInsert_pairwise x _ ih

theorem sortInsert_perm (r : SearchResult) (l : List SearchResult) :
    List.Perm (sortInsert r l) (r :: l) := by
  induction l with
  | nil => simp [sortInsert]
  | cons y ys ih =>
      unfold sortInsert
      by_cases hc : y.confidence ≤ r.confidence
      · rw [if_pos hc]
      · rw [if_neg hc]
        exact (ih.cons y).trans (List.Perm.swap r y ys)

theorem sortDesc_perm (l : List SearchResult) : List.Perm (sortDesc l) l := by
  induction l with
  | nil => simp [sortDesc]
  | cons x xs ih => exact (sortInsert_perm x _).trans (ih.cons x)

theorem mapSet_fresh (k : String) (v : SearchResult)
    (m : List (String × SearchResult)) (h : k ∉ m.map Prod.fst) :
    mapSet k v m = m ++ [(k, v)] := by
  induction m with
  | nil => rfl
  | cons p rest ih =>
      obtain ⟨k2, v2⟩ := p
      simp only [List.map_cons, List.mem_cons] at h
      push_neg at h
      unfold mapSet
      rw [if_neg h.1, ih h.2]
      simp

theorem buildMap_go (l : List SearchResult) (m : List (String × SearchResult))
    (hnd : (l.map dedupKey).Nodup)
    (hfresh : ∀ r ∈ l, dedupKey r ∉ m.map Prod.fst) :
    l.foldl (fun m r => mapSet (dedupKey r) r m) m
      = m ++ l.map fun r => (dedupKey r, r) := by
  induction l generalizing m with
  | nil => simp
  | cons r rest ih =>
      simp only [List.foldl_cons]
      rw [mapSet_fresh _ _ _ (hfresh r (List.mem_cons_self r rest))]
      simp only [List.map_cons, List.nodup_cons] at hnd
      rw [ih _ hnd.2]
      · simp
      · intro r' hr'
        simp only [List.map_append, List.mem_append, List.map_cons]
        push_neg
        refine ⟨hfresh r' (List.mem_cons_of_mem _ hr'), ?_⟩
        simp only [List.map_nil, List.mem_singleton]
        intro hkk
        exact hnd.1 (hkk ▸ List.mem_map_of_mem dedupKey hr')

theorem uniqueRanked_of_nodup_keys (l : List SearchResult)
    (h : (l.map dedupKey).Nodup) : uniqueRanked l = l := by
  unfold uniqueRanked buildMap
  rw [buildMap_go l [] h (by simp)]
  simp only [List.nil_append, List.map_map]
  have hid : (Prod.snd ∘ fun r : SearchResult => (dedupKey r, r)) = id := rfl
  rw [hid, List.map_id]

theorem addUnique_ne_nil (l : List String) (x : String) : addUnique l x ≠ [] := by
  unfold addUnique
  by_cases h : x ∈ l
  · rw [if_pos h]
    intro hl
    exact absurd (hl ▸ h) (List.not_mem_nil x)
  · rw [if_neg h]
    simp

theorem head?_addUnique (l : List String) (x : String) (h : l ≠ []) :
    (addUnique l x).head? = l.head? := by
  unfold addUnique
  by_cases hx : x ∈ l
  · rw [if_pos hx]
  · rw [if_neg hx]
    cases l with
    | nil => exact absurd rfl h
    | cons a t => rfl

theorem foldl_addUnique_ne_nil (cs : List String) (l : List String) (h : l ≠ []) :
    cs.foldl addUnique l ≠ [] := by
  induction cs generalizing l with
  | nil => exact h
  | cons c rest ih => exact ih _ (addUnique_ne_nil l c)

theorem head?_foldl_addUnique (cs : List String) (l : List String) (h : l ≠ []) :
    (cs.foldl addUnique l).head? = l.head? := by
  induction cs generalizing l with
  | nil => rfl
  | cons c rest ih =>
      rw [List.foldl_cons, ih _ (addUnique_ne_nil l c), head?_addUnique l c h]

theorem addUnique_nodup (l : List String) (x : String) (h : l.Nodup) :
    (addUnique l x).Nodup := by
  unfold addUnique
  by_cases hx : x ∈ l
  · rwa [if_pos hx]
  · rw [if_neg hx]
    refine List.Nodup.append h (List.nodup_singleton x) ?_
    intro a ha hax
    rw [List.mem_singleton] at hax
    exact hx (hax ▸ ha)

theorem foldl_addUnique_nodup (cs : List String) (l : List String) (h : l.Nodup) :
    (cs.foldl addUnique l).Nodup := by
  induction cs generalizing l with
  | nil => exact h
  | cons c rest ih => exact ih _ (addUnique_nodup l c h)

theorem head?_take_of_ne_zero {α : Type} (l : List α) (n : Nat) (h : n ≠ 0) :
    (l.take n).head? = l.head? := by
  cases l with
  | nil => simp
  | cons a t =>
      cases n with
      | zero => exact absurd rfl h
      | succ m => rfl

theorem scoreOf_ge_30 (md : SearchMetadata) (lb lt : String) :
    30 ≤ scoreOf md lb lt := by
  unfold scoreOf
  split_ifs <;> omega

/-- Number of the three metadata anchors (location, age, gender) whose bonus
condition is satisfied; these are the anchor categories that append a match
reason in `scrapeProfile`. -/
def anchorCount (md : SearchMetadata) (lowBio lowTitle : String) : Nat :=
  (if locationBonus md lowBio lowTitle then 1 else 0)
  + (if ageBonus md lowBio lowTitle then 1 else 0)
  + (if genderBonus md lowBio lowTitle then 1 else 0)

/-- Sample platform record for concrete evaluations. -/
def samplePlatform : Platform :=
  { name := "Instagram", url := "https://www.instagram.com/\x7b\x7d/",
    category := "social" }

/-- Sample request metadata supplying a location and a gender. -/
def sampleMeta : SearchMetadata :=
  { minAge := none, maxAge := none, gender := some "female",
    location := some "Paris", query := "jane" }

/-- Sample HTTP-200 response whose bio matches both the location and the
gender of `sampleMeta` and triggers no soft-404 marker and no person-profile
marker. -/
def sampleResp : FetchResponse :=
  { status := 200, title := "Jane", bodyText := "x",
    ogDescription := some "Paris female", metaDescription := none,
    twitterDescription := none, ogImage := none, twitterImage := none }

/-- Sample HTTP-403 response. -/
def sampleResp403 : FetchResponse :=
  { sampleResp with status := 403 }

/-! Claim C1: anchor promotion. -/

/-- C1 counterexample: a scored profile satisfying two distinct anchor
categories (location and gender, both reported in `matchReasons`) receives a
final confidence of 80, not at least 90 — the code has no anchor-promotion
rule, it only adds the fixed bonuses. -/
theorem anchor_promotion_counterexample :
    locationBonus sampleMeta (lowerStr (bioOf sampleResp)) (pageTitleOf sampleResp) = true ∧
    genderBonus sampleMeta (lowerStr (bioOf sampleResp)) (pageTitleOf sampleResp) = true ∧
    (scrapeProfile samplePlatform "jane" sampleMeta (FetchOutcome.success sampleResp)).matchReasons
      = ["Profile Discovery", "Verified Location Match", "Gender Consistency"] ∧
    (scrapeProfile samplePlatform "jane" sampleMeta (FetchOutcome.success sampleResp)).confidence = 80 ∧
    ¬ 90 ≤ (scrapeProfile samplePlatform "jane" sampleMeta (FetchOutcome.success sampleResp)).confidence := by
  refine ⟨by decide, by decide, by decide, by decide, by decide⟩

/-- C1 amended: whenever at least two of the three metadata anchor
categories (location, age, gender) are satisfied on an HTTP-200,
non-soft-404 page, the final confidence is at least 70 (the weakest pair is
age 25 + gender 15 over the base 30); the promotion to 90 claimed by the
spec is not implemented. -/
theorem two_anchor_score_lower_bound (pf : Platform) (u : String)
    (md : SearchMetadata) (resp : FetchResponse) (h200 : resp.status = 200)
    (hsoft : isSoft404 resp = false)
    (h2 : 2 ≤ anchorCount md (lowerStr (bioOf resp)) (pageTitleOf resp)) :
    70 ≤ (scrapeProfile pf u md (FetchOutcome.success resp)).confidence := by
  simp [scrapeProfile, scrapeResponse, h200, hsoft, successResult]
  unfold scoreOf
  unfold anchorCount at h2
  cases hl : locationBonus md (lowerStr (bioOf resp)) (pageTitleOf resp) <;>
    cases ha : ageBonus md (lowerStr (bioOf resp)) (pageTitleOf resp) <;>
      cases hg : genderBonus md (lowerStr (bioOf resp)) (pageTitleOf resp) <;>
        cases hm : markerBonus (lowerStr (bioOf resp)) (pageTitleOf resp) <;>
          simp [hl, ha, hg, hm] at h2 ⊢

/-- C1 amended witness: the sample profile satisfies two anchors and indeed
scores at least 70. -/
theorem two_anchor_score_lower_bound_witness :
    70 ≤ (scrapeProfile samplePlatform "jane" sampleMeta
      (FetchOutcome.success sampleResp)).confidence :=
  two_anchor_score_lower_bound samplePlatform "jane" sampleMeta sampleResp
    rfl (by decide) (by decide)

/-! Claim C2: deduplication keeps the higher confidence. -/

/-- C2: evaluation of the ranking pipeline at the failing input.  Two found
results share the same platform and URL with confidences 72 and 40; the code
sorts descending and then builds a JS `Map`, whose last write wins, so the
40-confidence instance survives — the claim (and the spec) say the
72-confidence instance is kept. -/
theorem dedup_keeps_lower_confidence :
    rankResults
      [{ platform := "Instagram", url := "https://www.instagram.com/jane/",
         found := true, username := "jane", category := "social",
         confidence := 72, matchReasons := [], scrapedBio := "",
         profileImage := "" },
       { platform := "Instagram", url := "https://www.instagram.com/jane/",
         found := true, username := "jane", category := "social",
         confidence := 40, matchReasons := [], scrapedBio := "",
         profileImage := "" }]
      = [{ platform := "Instagram", url := "https://www.instagram.com/jane/",
           found := true, username := "jane", category := "social",
           confidence := 40, matchReasons := [], scrapedBio := "",
           profileImage := "" }] := by
  decide

/-! Claim C3: confidence range. -/

/-- C3: every scraped result has confidence in `[15, 100]` when found (in
fact in `[30, 100]` or exactly 50) and exactly 0 when not found. -/
theorem scrape_confidence_range (pf : Platform) (u : String)
    (md : SearchMetadata) (o : FetchOutcome) :
    ((scrapeProfile pf u md o).found = true →
      15 ≤ (scrapeProfile pf u md o).confidence ∧
        (scrapeProfile pf u md o).confidence ≤ 100) ∧
    ((scrapeProfile pf u md o).found = false →
      (scrapeProfile pf u md o).confidence = 0) := by
  cases o with
  | failure => simp [scrapeProfile, notFoundResult]
  | success resp =>
      by_cases h404 : resp.status = 404
      · simp [scrapeProfile, scrapeResponse, h404, notFoundResult]
      · by_cases h200 : resp.status = 200
        · by_cases hsoft : isSoft404 resp = true
          · simp [scrapeProfile, scrapeResponse, h404, h200, hsoft, notFoundResult]
          · simp [scrapeProfile, scrapeResponse, h404, h200, hsoft, successResult]
            exact le_trans (by omega) (scoreOf_ge_30 md _ _)
        · by_cases hr : resp.status = 403 ∨ resp.status = 401
          · simp [scrapeProfile, scrapeResponse, h404, h200, hr, restrictedResult]
          · simp [scrapeProfile, scrapeResponse, h404, h200, hr, notFoundResult]

/-- C3 witness: the bounds instantiated at a found (403) response and the
zero confidence at a failed fetch. -/
theorem scrape_confidence_range_witness :
    (15 ≤ (scrapeProfile samplePlatform "jane" sampleMeta
        (FetchOutcome.success sampleResp403)).confidence ∧
      (scrapeProfile samplePlatform "jane" sampleMeta
        (FetchOutcome.success sampleResp403)).confidence ≤ 100) ∧
    (scrapeProfile samplePlatform "jane" sampleMeta
        FetchOutcome.failure).confidence = 0 :=
  ⟨(scrape_confidence_range samplePlatform "jane" sampleMeta
      (FetchOutcome.success sampleResp403)).1 (by decide),
   (scrape_confidence_range samplePlatform "jane" sampleMeta
      FetchOutcome.failure).2 (by decide)⟩

/-! Claim C4: ranking order. -/

/-- C4 counterexample: two found results with equal confidence and distinct
URLs keep their input order in the final output — the URL-ascending
tie-break the claim describes is not implemented (the JS sort is stable and
only compares confidences), so the output URLs here descend. -/
theorem ranking_tiebreak_counterexample :
    (rankResults
        [{ platform := "A", url := "https://b/", found := true,
           username := "u", category := "social", confidence := 50,
           matchReasons := [], scrapedBio := "", profileImage := "" },
         { platform := "A", url := "https://a/", found := true,
           username := "u", category := "social", confidence := 50,
           matchReasons := [], scrapedBio := "", profileImage := "" }]).map
      (fun r => r.url) = ["https://b/", "https://a/"] ∧
    "https://a/".toList < "https://b/".toList := by
  refine ⟨by decide, by decide⟩

/-- C4 amended: when no two results passing the publish filter share the
same `platform + url` deduplication key, the final output is non-increasing
in confidence; equal-confidence results keep their input order (stable
sort), not URL-ascending order. -/
theorem rank_output_sorted_of_nodup_keys (rs : List SearchResult)
    (h : ((rs.filter publishFilter).map dedupKey).Nodup) :
    (rankResults rs).Pairwise fun a b => b.confidence ≤ a.confidence := by
  unfold rankResults
  have hperm := (sortDesc_perm (rs.filter publishFilter)).map dedupKey
  rw [uniqueRanked_of_nodup_keys _ (hperm.nodup_iff.mpr h)]
  exact List.Pairwise.sublist (List.take_sublist _ _)
    (sortDesc_pairwise (rs.filter publishFilter))

/-- C4 amended witness: the sorted-output property instantiated at a
two-element input with distinct keys. -/
theorem rank_output_sorted_witness :
    (rankResults
        [{ platform := "A", url := "https://a/", found := true,
           username := "u", category := "social", confidence := 40,
           matchReasons := [], scrapedBio := "", profileImage := "" },
         { platform := "B", url := "https://b/", found := true,
           username := "u", category := "social", confidence := 90,
           matchReasons := [], scrapedBio := "", profileImage := "" }]).Pairwise
      (fun a b => b.confidence ≤ a.confidence) :=
  rank_output_sorted_of_nodup_keys _ (by decide)

/-! Claim C5: variations of the empty query. -/

/-- C5 counterexample: on the empty string the generator does not return a
single empty variation — the identity prefixes and suffixes are still
appended to the empty joined form, giving nine variations. -/
theorem empty_query_variations_counterexample :
    generateVariations "" ≠ [""] ∧ (generateVariations "").length = 9 := by
  refine ⟨by decide, by decide⟩

/-- C5 amended: the generator is total by construction; on the empty string
it returns nine variations, the empty string first, followed by the prefix
and suffix forms of the empty handle. -/
theorem empty_query_variations_eval :
    generateVariations ""
      = ["", "the", "real", "official", "iam", "dev", "hq", "admin", "profile"] := by
  decide

/-! Claim C6: variation generator contract. -/

/-- C6: for every query the generator returns at most 12 variations, all
pairwise distinct, and the first one is the no-separator joined form of the
whitespace-split tokens of the normalized query; determinism is immediate
since the generator is a pure function. -/
theorem generateVariations_contract (s : String) :
    (generateVariations s).length ≤ 12 ∧ (generateVariations s).Nodup ∧
      (generateVariations s).head? = some (joinedForm s) := by
  refine ⟨?_, ?_, ?_⟩
  · unfold generateVariations
    rw [List.length_take]
    exact Nat.min_le_left _ _
  · unfold generateVariations
    exact List.Nodup.sublist (List.take_sublist _ _)
      (foldl_addUnique_nodup _ _ List.nodup_nil)
  · unfold generateVariations
    rw [head?_take_of_ne_zero _ 12 (by decide)]
    have hcand : ∃ t, variationCandidates s = joinedForm s :: t := ⟨_, rfl⟩
    obtain ⟨t, ht⟩ := hcand
    rw [ht, List.foldl_cons,
      show addUnique [] (joinedForm s) = [joinedForm s] from rfl,
      head?_foldl_addUnique t _ (by simp)]
    rfl

/-! Claim C7: restricted and missing statuses. -/

/-- C7: a 401 or 403 response yields a found result carrying the fixed
restricted/private marker (bio `"Private Profile"`, the restricted-access
match reason, confidence 50), while a 404 yields a not-found result. -/
theorem restricted_status_classification (pf : Platform) (u : String)
    (md : SearchMetadata) (resp : FetchResponse) :
    (resp.status = 401 ∨ resp.status = 403 →
      (scrapeProfile pf u md (FetchOutcome.success resp)).found = true ∧
      (scrapeProfile pf u md (FetchOutcome.success resp)).confidence = 50 ∧
      (scrapeProfile pf u md (FetchOutcome.success resp)).scrapedBio
        = "Private Profile" ∧
      (scrapeProfile pf u md (FetchOutcome.success resp)).matchReasons
        = ["Platform restricted access (Profile likely exists)"]) ∧
    (resp.status = 404 →
      (scrapeProfile pf u md (FetchOutcome.success resp)).found = false) := by
  constructor
  · intro hr
    have h404 : ¬ resp.status = 404 := by rcases hr with h | h <;> omega
    have h200 : ¬ resp.status = 200 := by rcases hr with h | h <;> omega
    have hor : resp.status = 403 ∨ resp.status = 401 := hr.symm
    simp [scrapeProfile, scrapeResponse, h404, h200, hor, restrictedResult]
  · intro h404
    simp [scrapeProfile, scrapeResponse, h404, notFoundResult]

/-- C7 witness: the classification applied to the sample 403 response. -/
theorem restricted_status_classification_witness :
    (scrapeProfile samplePlatform "jane" sampleMeta
        (FetchOutcome.success sampleResp403)).found = true ∧
    (scrapeProfile samplePlatform "jane" sampleMeta
        (FetchOutcome.success sampleResp403)).confidence = 50 ∧
    (scrapeProfile samplePlatform "jane" sampleMeta
        (FetchOutcome.success sampleResp403)).scrapedBio = "Private Profile" ∧
    (scrapeProfile samplePlatform "jane" sampleMeta
        (FetchOutcome.success sampleResp403)).matchReasons
      = ["Platform restricted access (Profile likely exists)"] :=
  (restricted_status_classification samplePlatform "jane" sampleMeta
    sampleResp403).1 (Or.inr rfl)

/-! Claim C8: exceptions never propagate. -/

/-- C8: a thrown exception inside the fetcher (the `failure` outcome) is
converted into a not-found result with confidence 0, empty reasons and empty
bio; in this embedding `scrapeProfile` is a total function, so no exception
reaches the caller. -/
theorem scrape_failure_not_found (pf : Platform) (u : String)
    (md : SearchMetadata) :
    (scrapeProfile pf u md FetchOutcome.failure).found = false ∧
    (scrapeProfile pf u md FetchOutcome.failure).confidence = 0 ∧
    (scrapeProfile pf u md FetchOutcome.failure).matchReasons = [] ∧
    (scrapeProfile pf u md FetchOutcome.failure).scrapedBio = "" := by
  simp [scrapeProfile, notFoundResult]

/-! Claim C9: discovery client contract. -/

/-- C9: the discovery client returns the empty sequence when no API key is
configured, when the provider call throws, and when the provider reports an
error; on success it returns at most two URLs, each containing the platform
domain. -/
theorem searchDiscovery_contract (apiKey : Option String) (domain : String)
    (o : DiscoveryOutcome) :
    (apiKey = none → searchDiscovery apiKey domain o = []) ∧
    (o = DiscoveryOutcome.failure → searchDiscovery apiKey domain o = []) ∧
    (∀ r, o = DiscoveryOutcome.success r → r.error = true →
      searchDiscovery apiKey domain o = []) ∧
    (searchDiscovery apiKey domain o).length ≤ 2 ∧
    (∀ l ∈ searchDiscovery apiKey domain o, jsIncludes l domain = true) := by
  refine ⟨?_, ?_, ?_, ?_, ?_⟩
  · intro hk
    subst hk
    rfl
  · intro ho
    subst ho
    cases apiKey <;> rfl
  · intro r ho he
    subst ho
    cases apiKey with
    | none => rfl
    | some k => simp [searchDiscovery, he]
  · cases apiKey with
    | none => simp [searchDiscovery]
    | some k =>
        cases o with
        | failure => simp [searchDiscovery]
        | success r =>
            by_cases he : r.error = true
            · simp [searchDiscovery, he]
            · simp only [searchDiscovery, he, if_false, Bool.false_eq_true]
              rw [List.length_take]
              exact Nat.min_le_left _ _
  · intro l hl
    cases apiKey with
    | none => exact absurd hl (by simp [searchDiscovery])
    | some k =>
        cases o with
        | failure => exact absurd hl (by simp [searchDiscovery])
        | success r =>
            by_cases he : r.error = true
            · exact absurd hl (by simp [searchDiscovery, he])
            · simp only [searchDiscovery, he, if_false, Bool.false_eq_true] at hl
              exact (List.mem_filter.mp (List.take_subset _ _ hl)).2

/-- C9 witness: a configured key with a successful provider response yields
at most two domain-restricted links; a missing key yields the empty list. -/
theorem searchDiscovery_contract_witness :
    (searchDiscovery (some "k") "instagram.com"
        (DiscoveryOutcome.success
          { error := false,
            organicLinks := ["https://www.instagram.com/a/",
                             "https://duckduckgo.com/b",
                             "https://www.instagram.com/c/"] })).length ≤ 2 ∧
    searchDiscovery none "instagram.com" DiscoveryOutcome.failure = [] :=
  ⟨(searchDiscovery_contract (some "k") "instagram.com"
      (DiscoveryOutcome.success
        { error := false,
          organicLinks := ["https://www.instagram.com/a/",
                           "https://duckduckgo.com/b",
                           "https://www.instagram.com/c/"] })).2.2.2.1,
   (searchDiscovery_contract none "instagram.com"
      DiscoveryOutcome.failure).1 rfl⟩

/-! Claim C10: every found result passes the publish filter. -/

/-- C10: every result the fetcher marks as found has confidence at least 30
(50 in the restricted branch, base 30 plus bonuses otherwise), so the
publish filter `found && confidence >= 30` is equivalent to the `found`
flag on fetched results. -/
theorem found_implies_publishable (pf : Platform) (u : String)
    (md : SearchMetadata) (o : FetchOutcome) :
    ((scrapeProfile pf u md o).found = true →
      30 ≤ (scrapeProfile pf u md o).confidence) ∧
    publishFilter (scrapeProfile pf u md o) = (scrapeProfile pf u md o).found := by
  cases o with
  | failure => simp [scrapeProfile, notFoundResult, publishFilter]
  | success resp =>
      by_cases h404 : resp.status = 404
      · simp [scrapeProfile, scrapeResponse, h404, notFoundResult, publishFilter]
      · by_cases h200 : resp.status = 200
        · by_cases hsoft : isSoft404 resp = true
          · simp [scrapeProfile, scrapeResponse, h404, h200, hsoft,
              notFoundResult, publishFilter]
          · simp [scrapeProfile, scrapeResponse, h404, h200, hsoft,
              successResult, publishFilter]
            exact scoreOf_ge_30 md _ _
        · by_cases hr : resp.status = 403 ∨ resp.status = 401
          · simp [scrapeProfile, scrapeResponse, h404, h200, hr,
              restrictedResult, publishFilter]
          · simp [scrapeProfile, scrapeResponse, h404, h200, hr,
              notFoundResult, publishFilter]

/-- C10 witness: the lower bound applied to the found restricted result. -/
theorem found_implies_publishable_witness :
    30 ≤ (scrapeProfile samplePlatform "jane" sampleMeta
      (FetchOutcome.success sampleResp403)).confidence :=
  (found_implies_publishable samplePlatform "jane" sampleMeta
    (FetchOutcome.success sampleResp403)).1 (by decide)
